import Mathlib

/-!
Verification of the gk104 FIFO scheduler and fault-recovery engine
(drivers/gpu/drm/nouveau/nvkm/engine/fifo/gk104.c).

The definitions below are a shallow embedding of that file.  Hardware
register reads, the gpfifo consumer pointer, the presence of engine
objects and the result of cancel_delayed_work are environment inputs
and are passed as explicit parameters (oracles).  32-bit fields that
can overflow are modelled as Nat with explicit reduction modulo 2^32.
-/

namespace GK104Fifo

/-- engine status register field values for context status (gk104.c, top). -/
def CTXSW_STATUS_LOAD : Nat := 5

def CTXSW_STATUS_SAVE : Nat := 6

def CTXSW_STATUS_SWITCH : Nat := 7

def GRFIFO_TIMEOUT_CHECK_PERIOD_MS : Nat := 100

def GRFIFO_TIMEOUT_DEFAULT : Nat := 5000

def GRFIFO_CHAN_WATCHDOG_TIMEOUT_MS : Nat := 10000

/-- Channel lifecycle state, the anonymous enum in struct gk104_fifo_chan. -/
inductive ChanState where
  | STOPPED
  | RUNNING
  | KILLED
deriving DecidableEq, Repr

/-- The timeout sub-struct of gk104_fifo_chan: isr-side stall accounting
(sum_ms, limit_ms, gpfifo_get) and the software watchdog state
(watchdog_inited, watchdog_gpfifo_get).  watchdog_queued models whether
the delayed work item watchdog_work is currently scheduled. -/
structure TimeoutState where
  sum_ms : Nat
  limit_ms : Nat
  gpfifo_get : Nat
  watchdog_inited : Bool
  watchdog_gpfifo_get : Nat
  watchdog_queued : Bool
deriving DecidableEq, Repr

/-- struct gk104_fifo_chan: assigned engine (runlist index), lifecycle
state and the timeout sub-struct.  The channel id is the index in the
channel table and is passed separately where the source reads chid. -/
structure GkChan where
  engine : Nat
  state : ChanState
  timeout : TimeoutState
deriving DecidableEq, Repr

/-- Event notifications the scheduler emits to the upper layer:
nvkm_fifo_eevent with NOUVEAU_GEM_CHANNEL_FIFO_ERROR_IDLE_TIMEOUT, and
nvkm_fifo_uevent_fault (signal pending fences for a killed channel). -/
inductive EventKind where
  | idleTimeout
  | faultUevent
deriving DecidableEq, Repr

/-- The pending Fault Record held in gk104_fifo_priv: mask (engines to
reset), fault_chan (implicated channel id), fault_unit (fault-reporting
units), all protected by priv->base.lock.  work_queued models whether
the mmu_fault work item is queued (queue_work on system_highpri_wq is
idempotent, i.e. a depth-one queue). -/
structure FaultRecord where
  mask : Nat
  fault_chan : Option Nat
  fault_unit : Nat
  work_queued : Bool
deriving DecidableEq, Repr

/-- gk104_fifo_update_timeout: read the gpfifo get pointer (passed in as
gpfifo_read), zero sum_ms when the pointer moved, accumulate dt, record
the pointer, and report whether the accumulated stall strictly exceeds
the configured limit.  sum_ms is a u32, hence the mod 2^32. -/
def gk104_fifo_update_timeout (gpfifo_read : Nat) (t : TimeoutState) (dt : Nat) :
    TimeoutState × Bool :=
  let sum0 := if gpfifo_read ≠ t.gpfifo_get then 0 else t.sum_ms
  let sum1 := (sum0 + dt) % 2^32
  ({ t with sum_ms := sum1, gpfifo_get := gpfifo_read },
   decide (t.limit_ms < sum1))

/-- gk104_fifo_chan_timeout_start: arming the watchdog is a no-op while
watchdog_inited is set; otherwise record the current consumer pointer
(ptr, read via nv_ro32 at 0x20), mark inited and schedule the work. -/
def gk104_fifo_chan_timeout_start (ptr : Nat) (t : TimeoutState) : TimeoutState :=
  if t.watchdog_inited then t
  else { t with watchdog_gpfifo_get := ptr, watchdog_inited := true,
                watchdog_queued := true }

/-- gk104_fifo_chan_timeout_stop: no-op when not inited, otherwise cancel
the delayed work and clear watchdog_inited. -/
def gk104_fifo_chan_timeout_stop (t : TimeoutState) : TimeoutState :=
  if !t.watchdog_inited then t
  else { t with watchdog_queued := false, watchdog_inited := false }

/-- The fault-record update performed by gk104_fifo_mmu_fault_recover
under priv->base.lock: OR the engine bit into mask, overwrite fault_chan
with the newest faulting channel, OR the unit bit into fault_unit, and
queue the recovery work (idempotent enqueue). -/
def fault_record_merge (rec : FaultRecord) (engid chid unitv : Nat) : FaultRecord :=
  { mask := rec.mask ||| (1 <<< engid),
    fault_chan := some chid,
    fault_unit := rec.fault_unit ||| (1 <<< unitv),
    work_queued := true }

/-- gk104_fifo_mmu_fault_recover (synchronous half): disable the channel,
set its state to KILLED, merge this fault into the pending record under
the lock, notify the upper layer (uevent fault) and enqueue the
asynchronous recovery work.  engid is nv_engidx(engine). -/
def gk104_fifo_mmu_fault_recover (engid chid unitv : Nat) (ch : GkChan)
    (rec : FaultRecord) : GkChan × FaultRecord × List (Nat × EventKind) :=
  ({ ch with state := ChanState.KILLED },
   fault_record_merge rec engid chid unitv,
   [(chid, EventKind.faultUevent)])

/-- The critical-section prefix of gk104_fifo_mmu_fault_recover_work
(asynchronous half): under priv->base.lock, take the whole pending
record (mask, fault_chan, fault_unit) and clear it before acting. -/
def gk104_fifo_mmu_fault_recover_work_take (rec : FaultRecord) :
    (Nat × Option Nat × Nat) × FaultRecord :=
  ((rec.mask, rec.fault_chan, rec.fault_unit),
   { mask := 0, fault_chan := none, fault_unit := 0, work_queued := false })

/-- gk104_fifo_chan_timeout_work: the fired watchdog.  cur is the gpfifo
get pointer read now, esub maps a runlist engine index to its subdev
engine id (gk104_fifo_engine composed with nv_engidx).  Returns the
updated channel, the fault record, emitted events and, when it
escalates, the (runlist engine index, chid) recovery call — the source
always escalates with engine index 0. -/
def gk104_fifo_chan_timeout_work (esub : Nat → Nat) (chid cur : Nat)
    (ch : GkChan) (rec : FaultRecord) :
    GkChan × FaultRecord × List (Nat × EventKind) × Option (Nat × Nat) :=
  let t := ch.timeout
  let pre := t.watchdog_gpfifo_get
  if !t.watchdog_inited then
    ({ ch with timeout := { t with watchdog_inited := false, watchdog_queued := false } },
     rec, [], none)
  else
    let t1 := { t with watchdog_inited := false, watchdog_queued := false }
    if cur ≠ pre then
      ({ ch with timeout := gk104_fifo_chan_timeout_start cur t1 }, rec, [], none)
    else
      let q := gk104_fifo_mmu_fault_recover (esub 0) chid 0
        { ch with timeout := t1 } rec
      (q.1, q.2.1, (chid, EventKind.idleTimeout) :: q.2.2, some (0, chid))

/-- Point update of the channel table. -/
def updTable (tbl : Nat → Option GkChan) (i : Nat) (c : GkChan) :
    Nat → Option GkChan :=
  fun j => if j = i then some c else tbl j

/-- The loop body sequence of gk104_fifo_chan_timeout_restart_all over an
explicit list of channel ids: skip empty slots and channels whose
watchdog is not inited; cancel the delayed work (cOk i tells whether
cancel_delayed_work returned nonzero) — on failure return false at once
with the table as it stands; reschedule the work unless the id is the
exception channel. -/
def gk104_fifo_chan_timeout_restart_scan (cOk : Nat → Bool) (exception : Nat) :
    List Nat → (Nat → Option GkChan) → Bool × (Nat → Option GkChan)
  | [], tbl => (true, tbl)
  | i :: rest, tbl =>
    match tbl i with
    | none => gk104_fifo_chan_timeout_restart_scan cOk exception rest tbl
    | some ch =>
      if !ch.timeout.watchdog_inited then
        gk104_fifo_chan_timeout_restart_scan cOk exception rest tbl
      else if !cOk i then (false, tbl)
      else
        let ch1 := { ch with timeout := { ch.timeout with watchdog_queued := false } }
        let ch2 := if i = exception then ch1
                   else { ch1 with timeout := { ch1.timeout with watchdog_queued := true } }
        gk104_fifo_chan_timeout_restart_scan cOk exception rest (updTable tbl i ch2)

/-- gk104_fifo_chan_timeout_restart_all: the scan runs over the ids
min, min+1, ..., max-1 (the C loop condition is i < priv->base.max). -/
def gk104_fifo_chan_timeout_restart_all (cOk : Nat → Bool) (minc maxc exception : Nat)
    (tbl : Nat → Option GkChan) : Bool × (Nat → Option GkChan) :=
  gk104_fifo_chan_timeout_restart_scan cOk exception
    (List.range' minc (maxc - minc)) tbl

/-- The runlist-entry condition of the gk104_fifo_runlist_update loop:
a slot contributes iff occupied, RUNNING, and bound to the target engine. -/
def runlist_chan_entry (engine : Nat) : Option GkChan → Bool
  | some ch => ch.state == ChanState.RUNNING && ch.engine == engine
  | none => false

/-- The entries gk104_fifo_runlist_update writes: channel ids i for
i = 0, ..., max-1 in increasing order whose channel is RUNNING on the
target engine (the C loop writes (i, 0) pairs at increasing offsets). -/
def gk104_fifo_runlist_entries (tbl : Nat → Option GkChan) (maxc engine : Nat) :
    List Nat :=
  (List.range maxc).filter (fun i => runlist_chan_entry engine (tbl i))

/-- One engine slot: the pair of runlist buffers and cur_runlist, the
index of the buffer the next update will write. -/
structure Engn where
  runlist0 : List Nat
  runlist1 : List Nat
  cur_runlist : Bool
deriving DecidableEq, Repr

/-- Result of gk104_fifo_runlist_update: the new engine slot, the entry
list written and submitted to hardware, and which buffer was written. -/
structure RunlistResult where
  engn : Engn
  submitted : List Nat
  submittedBuf : Bool
deriving DecidableEq, Repr

/-- gk104_fifo_runlist_update: pick the buffer indexed by cur_runlist,
flip cur_runlist, fill the picked buffer with the RUNNING channels of
the target engine, and point hardware at it (it becomes live). -/
def gk104_fifo_runlist_update (tbl : Nat → Option GkChan) (maxc engine : Nat)
    (e : Engn) : RunlistResult :=
  let buf := e.cur_runlist
  let entries := gk104_fifo_runlist_entries tbl maxc engine
  { engn := { runlist0 := if buf then e.runlist0 else entries,
              runlist1 := if buf then entries else e.runlist1,
              cur_runlist := !buf },
    submitted := entries,
    submittedBuf := buf }

/-- gk104_fifo_chan_init: baseInit is the result of nvkm_fifo_channel_init
(none = success); on failure return it with the channel untouched,
otherwise program the binding and, when the state is STOPPED, move to
RUNNING (enable, runlist update, enable). -/
def gk104_fifo_chan_init (baseInit : Option Int) (ch : GkChan) :
    Option Int × GkChan :=
  match baseInit with
  | some e => (some e, ch)
  | none =>
    (none, if ch.state = ChanState.STOPPED then { ch with state := ChanState.RUNNING } else ch)

/-- Result of gk104_fifo_chan_fini: error return, the channel struct, and
whether the channel was disabled, the runlist rebuilt and the per-channel
hardware register (0x800000 + chid*8) cleared. -/
structure FiniResult where
  err : Option Int
  chan : GkChan
  disabled : Bool
  runlistUpdated : Bool
  regCleared : Bool
deriving DecidableEq, Repr

/-- gk104_fifo_chan_fini: when suspend is requested and the engine-idle
wait (idleOk) expires, return -ETIMEDOUT (-110) at once with nothing
changed.  Otherwise stop the watchdog, move RUNNING to STOPPED (disable
+ runlist update), kick (kick is its error result; an error aborts only
under suspend), clear the channel register and run the base fini. -/
def gk104_fifo_chan_fini (suspend idleOk : Bool) (kick baseFini : Option Int)
    (ch : GkChan) : FiniResult :=
  if suspend && !idleOk then
    { err := some (-110), chan := ch, disabled := false,
      runlistUpdated := false, regCleared := false }
  else
    let ch1 := { ch with timeout := gk104_fifo_chan_timeout_stop ch.timeout }
    let dis := decide (ch1.state = ChanState.RUNNING)
    let ch2 := if ch1.state = ChanState.RUNNING then { ch1 with state := ChanState.STOPPED } else ch1
    match kick with
    | some e =>
      if suspend then
        { err := some e, chan := ch2, disabled := dis,
          runlistUpdated := dis, regCleared := false }
      else
        { err := baseFini, chan := ch2, disabled := dis,
          runlistUpdated := dis, regCleared := true }
    | none =>
      { err := baseFini, chan := ch2, disabled := dis,
        runlistUpdated := dis, regCleared := true }

/-- The priority argument of KEPLER_SET_CHANNEL_PRIORITY: the three
defined levels, or any other value. -/
inductive Priority where
  | low
  | medium
  | high
  | other (n : Nat)
deriving DecidableEq, Repr

/-- Hardware actions of gk104_fifo_set_runlist_timeslice, in order. -/
inductive SliceAct where
  | disable
  | kick
  | writeSlice (slice regval : Nat)
  | enable
deriving DecidableEq, Repr

/-- gk104_fifo_set_runlist_timeslice: disable the channel, confirm the
kick, write slice | 0x10003000 to offset 0xf8, re-enable. -/
def gk104_fifo_set_runlist_timeslice (slice : Nat) : List SliceAct :=
  [SliceAct.disable, SliceAct.kick,
   SliceAct.writeSlice slice (slice ||| 0x10003000), SliceAct.enable]

/-- gk104_fifo_chan_set_priority: low/medium/high map to time slices
64/128/255 and perform the timeslice sequence, returning 0; any other
value returns -EINVAL (-22) with no hardware action.  The channel
struct itself is not written. -/
def gk104_fifo_chan_set_priority (p : Priority) (ch : GkChan) :
    Int × List SliceAct × GkChan :=
  match p with
  | Priority.low => (0, gk104_fifo_set_runlist_timeslice 64, ch)
  | Priority.medium => (0, gk104_fifo_set_runlist_timeslice 128, ch)
  | Priority.high => (0, gk104_fifo_set_runlist_timeslice 255, ch)
  | Priority.other _ => (-22, [], ch)

/-- gk104_fifo_chan_set_timeout: store the u32 millisecond value into
timeout.limit_ms; no other effect. -/
def gk104_fifo_chan_set_timeout (ms : Nat) (ch : GkChan) : GkChan :=
  { ch with timeout := { ch.timeout with limit_ms := ms % 2^32 } }

/-- First index i with i0 ≤ i < i0+n satisfying p, scanning upward:
the engine-selection loop of gk104_fifo_chan_ctor. -/
def find_first (p : Nat → Bool) : Nat → Nat → Option Nat
  | _, 0 => none
  | i, n+1 => if p i then some i else find_first p (i+1) n

/-- gk104_fifo_chan_ctor: scan i = 0, ..., num_engine-1 for the first i
with bit i set in the requested engine mask and an exposed engine
(nvkm_engine non-null, modelled by exposed); none found is -ENODEV (-19).
alloc is the result of nvkm_fifo_channel_create (none = success).  The
new channel is bound to engine i with sum_ms = 0, limit_ms = 5000 and a
disarmed watchdog. -/
def gk104_fifo_chan_ctor (num_engine : Nat) (exposed : Nat → Bool)
    (engineMask : Nat) (alloc : Option Int) : Except Int GkChan :=
  match find_first (fun i => engineMask.testBit i && exposed i) 0 num_engine with
  | none => Except.error (-19)
  | some i =>
    match alloc with
    | some e => Except.error e
    | none => Except.ok
      { engine := i, state := ChanState.STOPPED,
        timeout := { sum_ms := 0, limit_ms := GRFIFO_TIMEOUT_DEFAULT,
                     gpfifo_get := 0, watchdog_inited := false,
                     watchdog_gpfifo_get := 0, watchdog_queued := false } }

/-- Device context for the context-switch timeout monitor: number of
runlist engines, which are exposed, their subdev engine ids, the channel
id bounds (priv->base.min / priv->base.max), the cancel_delayed_work
oracle and the gpfifo get pointer read per channel. -/
structure FifoCtx where
  num_engine : Nat
  engineExposed : Nat → Bool
  engsubdev : Nat → Nat
  minc : Nat
  maxc : Nat
  cancelOk : Nat → Bool
  ptrRead : Nat → Nat

/-- Channel id decoded from an engine status word: "next" (bits 16-27)
while the context status is LOAD, otherwise "prev" (bits 0-11). -/
def ctxsw_chid (stat : Nat) : Nat :=
  let next := (stat &&& 0x0fff0000) >>> 16
  let ctxstat := (stat &&& 0x0000e000) >>> 13
  let prev := stat &&& 0x00000fff
  if ctxstat == CTXSW_STATUS_LOAD then next else prev

/-- Busy bit set and context status in a load/save/switch sub-state. -/
def ctxsw_busy_active (stat : Nat) : Bool :=
  let busy := (stat &&& 0x80000000) != 0
  let ctxstat := (stat &&& 0x0000e000) >>> 13
  busy && (ctxstat == CTXSW_STATUS_LOAD || ctxstat == CTXSW_STATUS_SAVE ||
           ctxstat == CTXSW_STATUS_SWITCH)

/-- Result of one engine iteration of gk104_fifo_intr_sched_ctxsw. -/
structure CtxswResult where
  table : Nat → Option GkChan
  record : FaultRecord
  events : List (Nat × EventKind)
  recovered : Option Nat
  waitWarned : Bool
  recoveryDelayUpdated : Bool

/-- One engine iteration of gk104_fifo_intr_sched_ctxsw: decode the
status word; when busy in an active switch, look up the channel and the
engine, run gk104_fifo_update_timeout with the 100 ms check period; if
over the limit, emit the idle-timeout event, run the watchdog restart
scan and — only when it succeeds — run gk104_fifo_sched_ctxsw_recover
(a synthesized fault with unit 0: the channel is killed, the record
merged, the fault uevent emitted); otherwise log the waiting warning
and update the recovery-delay debounce. -/
def gk104_fifo_intr_sched_ctxsw_engine (ctx : FifoCtx) (tbl : Nat → Option GkChan)
    (rec : FaultRecord) (engn stat : Nat) : CtxswResult :=
  let chid := ctxsw_chid stat
  if ctxsw_busy_active stat then
    match tbl chid with
    | none => ⟨tbl, rec, [], none, false, false⟩
    | some ch =>
      if engn < ctx.num_engine ∧ ctx.engineExposed engn = true then
        let p := gk104_fifo_update_timeout (ctx.ptrRead chid) ch.timeout
          GRFIFO_TIMEOUT_CHECK_PERIOD_MS
        let tbl1 := updTable tbl chid { ch with timeout := p.1 }
        if p.2 then
          let s := gk104_fifo_chan_timeout_restart_all ctx.cancelOk ctx.minc
            ctx.maxc chid tbl1
          if s.1 then
            ⟨fun j => if j = chid then
                (s.2 j).map (fun c => { c with state := ChanState.KILLED })
              else s.2 j,
             fault_record_merge rec (ctx.engsubdev engn) chid 0,
             [(chid, EventKind.idleTimeout), (chid, EventKind.faultUevent)],
             some chid, false, false⟩
          else ⟨s.2, rec, [(chid, EventKind.idleTimeout)], none, false, false⟩
        else ⟨tbl1, rec, [], none, true, true⟩
      else ⟨tbl, rec, [], none, false, false⟩
  else ⟨tbl, rec, [], none, false, false⟩

/-- The channel-state-affecting operations of the driver, each applied
through its embedded definition. -/
inductive ChanOp where
  | init (baseInit : Option Int)
  | fini (suspend idleOk : Bool) (kick baseFini : Option Int)
  | setPriority (p : Priority)
  | setTimeout (ms : Nat)
  | runlistRebuild
  | recover (engid unitv : Nat) (rec : FaultRecord)
deriving Repr

/-- Whether the operation is the synchronous recovery half. -/
def ChanOp.isRecover : ChanOp → Bool
  | ChanOp.recover _ _ _ => true
  | _ => false

/-- The effect of each operation on one channel struct (the runlist
rebuild only reads channels; set-priority writes instance memory and
registers, not the channel struct). -/
def applyChanOp (chid : Nat) : ChanOp → GkChan → GkChan
  | ChanOp.init b, ch => (gk104_fifo_chan_init b ch).2
  | ChanOp.fini s i k b, ch => (gk104_fifo_chan_fini s i k b ch).chan
  | ChanOp.setPriority p, ch => (gk104_fifo_chan_set_priority p ch).2.2
  | ChanOp.setTimeout ms, ch => gk104_fifo_chan_set_timeout ms ch
  | ChanOp.runlistRebuild, ch => ch
  | ChanOp.recover e u rec, ch => (gk104_fifo_mmu_fault_recover e chid u ch rec).1

/-! ## Theorems -/

/-- C1: a fault arriving while a recovery is already queued is merged
into the single pending Fault Record — the engine bit is OR'd into the
mask, the unit bit OR'd into the unit mask, the implicated channel
overwritten with the newest one — enqueueing is idempotent (the depth-one
work flag is simply true), and the asynchronous half atomically takes
and clears the whole pending record before acting on it. -/
theorem c1_fault_record_merge_single_pass (rec : FaultRecord)
    (e1 ch1id u1 e2 ch2id u2 : Nat) (ch1 ch2 : GkChan) :
    ((gk104_fifo_mmu_fault_recover e1 ch1id u1 ch1 rec).2.1.work_queued = true) ∧
    ((gk104_fifo_mmu_fault_recover e2 ch2id u2 ch2
        (gk104_fifo_mmu_fault_recover e1 ch1id u1 ch1 rec).2.1).2.1 =
      { mask := rec.mask ||| (1 <<< e1) ||| (1 <<< e2),
        fault_chan := some ch2id,
        fault_unit := rec.fault_unit ||| (1 <<< u1) ||| (1 <<< u2),
        work_queued := true }) ∧
    (∀ r : FaultRecord, gk104_fifo_mmu_fault_recover_work_take r =
      ((r.mask, r.fault_chan, r.fault_unit),
       { mask := 0, fault_chan := none, fault_unit := 0, work_queued := false })) ∧
    ((gk104_fifo_mmu_fault_recover e1 ch1id u1 ch1 rec).1 =
      { ch1 with state := ChanState.KILLED }) := by
  refine ⟨rfl, rfl, fun r => rfl, rfl⟩

/-- Concrete stall-accounting state used by the C3 counterexample:
sum_ms 42, recorded consumer pointer 5. -/
def c3_t : TimeoutState :=
  { sum_ms := 42, limit_ms := 5000, gpfifo_get := 5,
    watchdog_inited := false, watchdog_gpfifo_get := 0, watchdog_queued := false }

/-- C3 counterexample: with the observed pointer 6 differing from the
recorded pointer 5 and interval 100, the accumulated stall counter after
the check is 100, not 0 as the claim states (the source zeroes the
counter and then adds the interval). -/
theorem c3_counterexample :
    ¬ ((gk104_fifo_update_timeout 6 c3_t 100).1.sum_ms = 0) := by
  decide

/-- C3 (amended): if the observed consumer pointer equals the recorded
value, the stall counter increases by exactly dt (no u32 overflow); if
it differs, the counter is reset and the current interval added, so it
ends at exactly dt; the observed pointer is recorded either way, and
the returned flag is the strict comparison against the limit. -/
theorem c3_update_timeout (ptr dt : Nat) (t : TimeoutState) :
    (ptr = t.gpfifo_get → t.sum_ms + dt < 2^32 →
      (gk104_fifo_update_timeout ptr t dt).1.sum_ms = t.sum_ms + dt) ∧
    (ptr ≠ t.gpfifo_get → dt < 2^32 →
      (gk104_fifo_update_timeout ptr t dt).1.sum_ms = dt) ∧
    ((gk104_fifo_update_timeout ptr t dt).1.gpfifo_get = ptr) ∧
    ((gk104_fifo_update_timeout ptr t dt).2 =
      decide (t.limit_ms < (gk104_fifo_update_timeout ptr t dt).1.sum_ms)) := by
  refine ⟨?_, ?_, ?_, ?_⟩
  · intro h hlt
    simp [gk104_fifo_update_timeout, h]
    omega
  · intro h hlt
    simp [gk104_fifo_update_timeout, h]
    omega
  · simp [gk104_fifo_update_timeout]
  · simp [gk104_fifo_update_timeout]

/-- C3 witness: at pointer 5 (unchanged) the counter goes from 42 to
142; at pointer 6 (changed) it ends at exactly 100. -/
theorem c3_update_timeout_witness :
    (gk104_fifo_update_timeout 5 c3_t 100).1.sum_ms = 142 ∧
    (gk104_fifo_update_timeout 6 c3_t 100).1.sum_ms = 100 := by
  exact ⟨(c3_update_timeout 5 100 c3_t).1 (by decide) (by decide),
         (c3_update_timeout 6 100 c3_t).2.1 (by decide) (by decide)⟩

/-- C8: set-priority maps low/medium/high to time slices 64/128/255,
performs the disable / kick / reprogram (slice | 0x10003000) / re-enable
sequence and returns 0; any other priority returns -EINVAL (-22) with no
hardware action and no channel change. -/
theorem c8_set_priority (ch : GkChan) :
    (gk104_fifo_chan_set_priority Priority.low ch =
      (0, [SliceAct.disable, SliceAct.kick,
           SliceAct.writeSlice 64 (64 ||| 0x10003000), SliceAct.enable], ch)) ∧
    (gk104_fifo_chan_set_priority Priority.medium ch =
      (0, [SliceAct.disable, SliceAct.kick,
           SliceAct.writeSlice 128 (128 ||| 0x10003000), SliceAct.enable], ch)) ∧
    (gk104_fifo_chan_set_priority Priority.high ch =
      (0, [SliceAct.disable, SliceAct.kick,
           SliceAct.writeSlice 255 (255 ||| 0x10003000), SliceAct.enable], ch)) ∧
    (∀ n, gk104_fifo_chan_set_priority (Priority.other n) ch = (-22, [], ch)) := by
  refine ⟨rfl, rfl, rfl, fun n => rfl⟩

/-- C9: when stop is called with suspend requested and the bounded
engine-idle wait expires, chan_fini returns -ETIMEDOUT (-110) at once
and the channel is left entirely unchanged: state and watchdog intact,
no runlist rebuild, channel not disabled, register not cleared. -/
theorem c9_fini_timeout_atomic (ch : GkChan) (kick baseFini : Option Int) :
    gk104_fifo_chan_fini true false kick baseFini ch =
      { err := some (-110), chan := ch, disabled := false,
        runlistUpdated := false, regCleared := false } := by
  rfl

/-- State effect of chan_fini: unchanged when the suspend idle-wait
aborts, otherwise RUNNING moves to STOPPED and anything else stays. -/
theorem gk104_fifo_chan_fini_state (s i : Bool) (k bf : Option Int) (ch : GkChan) :
    (gk104_fifo_chan_fini s i k bf ch).chan.state =
      if s && !i then ch.state
      else if ch.state = ChanState.RUNNING then ChanState.STOPPED else ch.state := by
  cases k <;> cases s <;> cases i <;>
    by_cases hr : ch.state = ChanState.RUNNING <;>
      simp [gk104_fifo_chan_fini, gk104_fifo_chan_timeout_stop, hr]

/-- Case split for the state effect of every channel operation: the
state is unchanged, or the op is the recovery half and the state became
KILLED, or init moved STOPPED to RUNNING, or fini moved RUNNING to
STOPPED. -/
theorem applyChanOp_state_cases (chid : Nat) (op : ChanOp) (ch : GkChan) :
    (applyChanOp chid op ch).state = ch.state ∨
    (op.isRecover = true ∧ (applyChanOp chid op ch).state = ChanState.KILLED) ∨
    (ch.state = ChanState.STOPPED ∧ (applyChanOp chid op ch).state = ChanState.RUNNING) ∨
    (ch.state = ChanState.RUNNING ∧ (applyChanOp chid op ch).state = ChanState.STOPPED) := by
  cases op with
  | init b =>
    cases b with
    | none =>
      by_cases h : ch.state = ChanState.STOPPED
      · exact Or.inr (Or.inr (Or.inl ⟨h, by simp [applyChanOp, gk104_fifo_chan_init, h]⟩))
      · exact Or.inl (by simp [applyChanOp, gk104_fifo_chan_init, h])
    | some e => exact Or.inl rfl
  | fini s i k bf =>
    have hst := gk104_fifo_chan_fini_state s i k bf ch
    by_cases hs : (s && !i) = true
    · exact Or.inl (by simp [applyChanOp, hst, hs])
    · by_cases hr : ch.state = ChanState.RUNNING
      · exact Or.inr (Or.inr (Or.inr ⟨hr, by simp [applyChanOp, hst, hs, hr]⟩))
      · exact Or.inl (by simp [applyChanOp, hst, hs, hr])
  | setPriority p => cases p <;> exact Or.inl rfl
  | setTimeout ms => exact Or.inl rfl
  | runlistRebuild => exact Or.inl rfl
  | recover e u rec => exact Or.inr (Or.inl ⟨rfl, rfl⟩)

/-- C2: KILLED is terminal — no operation (init, fini, set-priority,
set-timeout, runlist rebuild, recovery) moves a KILLED channel to
STOPPED or RUNNING; the transition to RUNNING fires only from STOPPED,
the transition to STOPPED fires only from RUNNING, and only the
synchronous recovery half produces KILLED from a live channel. -/
theorem c2_killed_terminal (chid : Nat) (op : ChanOp) (ch : GkChan) :
    (ch.state = ChanState.KILLED →
      (applyChanOp chid op ch).state = ChanState.KILLED) ∧
    ((applyChanOp chid op ch).state = ChanState.RUNNING →
      ch.state = ChanState.STOPPED ∨ ch.state = ChanState.RUNNING) ∧
    ((applyChanOp chid op ch).state = ChanState.STOPPED →
      ch.state = ChanState.RUNNING ∨ ch.state = ChanState.STOPPED) ∧
    (op.isRecover = false →
      (applyChanOp chid op ch).state = ChanState.KILLED →
      ch.state = ChanState.KILLED) := by
  have H := applyChanOp_state_cases chid op ch
  refine ⟨?_, ?_, ?_, ?_⟩
  · intro hk
    rcases H with h | ⟨_, h⟩ | ⟨h1, _⟩ | ⟨h1, _⟩
    · rw [h, hk]
    · exact h
    · rw [hk] at h1; cases h1
    · rw [hk] at h1; cases h1
  · intro hr
    rcases H with h | ⟨_, h⟩ | ⟨h1, _⟩ | ⟨h1, h2⟩
    · rw [h] at hr; exact Or.inr hr
    · rw [hr] at h; cases h
    · exact Or.inl h1
    · rw [hr] at h2; cases h2
  · intro hs
    rcases H with h | ⟨_, h⟩ | ⟨h1, h2⟩ | ⟨h1, _⟩
    · rw [h] at hs; exact Or.inr hs
    · rw [hs] at h; cases h
    · rw [hs] at h2; cases h2
    · exact Or.inl h1
  · intro hnr hk
    rcases H with h | ⟨h1, _⟩ | ⟨_, h2⟩ | ⟨_, h2⟩
    · rw [h] at hk; exact hk
    · rw [h1] at hnr; cases hnr
    · rw [hk] at h2; cases h2
    · rw [hk] at h2; cases h2

/-- A killed channel used by the C2 witness. -/
def c2_chK : GkChan :=
  { engine := 0, state := ChanState.KILLED,
    timeout := { sum_ms := 0, limit_ms := 5000, gpfifo_get := 0,
                 watchdog_inited := false, watchdog_gpfifo_get := 0,
                 watchdog_queued := false } }

/-- C2 witness: starting (init) a KILLED channel leaves it KILLED. -/
theorem c2_killed_terminal_witness :
    c2_chK.state = ChanState.KILLED ∧
    (applyChanOp 0 (ChanOp.init none) c2_chK).state = ChanState.KILLED := by
  exact ⟨rfl, (c2_killed_terminal 0 (ChanOp.init none) c2_chK).1 rfl⟩

/-- Watchdog state after a firing that observed progress and re-armed
with the new pointer cur. -/
def wd_rearmed (cur : Nat) (t : TimeoutState) : TimeoutState :=
  { t with watchdog_inited := true, watchdog_queued := true, watchdog_gpfifo_get := cur }

/-- Watchdog state after a firing that consumed the work item. -/
def wd_fired (t : TimeoutState) : TimeoutState :=
  { t with watchdog_inited := false, watchdog_queued := false }

/-- C6: arming the armed watchdog is a no-op; a fired watchdog whose
current consumer pointer differs from the recorded one re-arms itself
(recording the new pointer) without escalating; a fired watchdog with an
unchanged pointer emits the idle-timeout event and invokes recovery for
the channel with the placeholder engine index 0. -/
theorem c6_watchdog (t : TimeoutState) (esub : Nat → Nat) (ptr chid cur : Nat)
    (ch : GkChan) (rec : FaultRecord) :
    (t.watchdog_inited = true → gk104_fifo_chan_timeout_start ptr t = t) ∧
    (ch.timeout.watchdog_inited = true →
      cur ≠ ch.timeout.watchdog_gpfifo_get →
      gk104_fifo_chan_timeout_work esub chid cur ch rec =
        ({ ch with timeout := wd_rearmed cur ch.timeout }, rec, [], none)) ∧
    (ch.timeout.watchdog_inited = true →
      cur = ch.timeout.watchdog_gpfifo_get →
      gk104_fifo_chan_timeout_work esub chid cur ch rec =
        ({ ch with state := ChanState.KILLED, timeout := wd_fired ch.timeout },
         fault_record_merge rec (esub 0) chid 0,
         [(chid, EventKind.idleTimeout), (chid, EventKind.faultUevent)],
         some (0, chid))) := by
  refine ⟨?_, ?_, ?_⟩
  · intro h
    simp [gk104_fifo_chan_timeout_start, h]
  · intro h hne
    simp [gk104_fifo_chan_timeout_work, h, hne, gk104_fifo_chan_timeout_start,
          wd_rearmed]
  · intro h heq
    simp [gk104_fifo_chan_timeout_work, h, heq,
          gk104_fifo_mmu_fault_recover, wd_fired]

/-- Armed-watchdog channel fixture for the C6 witness: recorded
consumer pointer 9. -/
def c6_ch : GkChan :=
  { engine := 0, state := ChanState.RUNNING,
    timeout := { sum_ms := 0, limit_ms := 5000, gpfifo_get := 0,
                 watchdog_inited := true, watchdog_gpfifo_get := 9,
                 watchdog_queued := true } }

/-- C6 witness: re-arming the armed watchdog changes nothing; a firing
with the pointer moved (11 vs 9) does not escalate; a firing with the
pointer unchanged (9) escalates via engine index 0. -/
theorem c6_watchdog_witness :
    c6_ch.timeout.watchdog_inited = true ∧
    gk104_fifo_chan_timeout_start 7 c6_ch.timeout = c6_ch.timeout ∧
    (gk104_fifo_chan_timeout_work (fun _ => 3) 5 11 c6_ch
      { mask := 0, fault_chan := none, fault_unit := 0, work_queued := false }).2.2.2 = none ∧
    (gk104_fifo_chan_timeout_work (fun _ => 3) 5 9 c6_ch
      { mask := 0, fault_chan := none, fault_unit := 0, work_queued := false }).2.2.2 =
      some (0, 5) := by
  have H := c6_watchdog c6_ch.timeout (fun _ => 3) 7 5 11 c6_ch
    { mask := 0, fault_chan := none, fault_unit := 0, work_queued := false }
  have H9 := c6_watchdog c6_ch.timeout (fun _ => 3) 7 5 9 c6_ch
    { mask := 0, fault_chan := none, fault_unit := 0, work_queued := false }
  refine ⟨rfl, H.1 rfl, ?_, ?_⟩
  · have h := H.2.1 rfl (by decide)
    exact congrArg (fun q => q.2.2.2) h
  · have h := H9.2.2 rfl (by decide)
    exact congrArg (fun q => q.2.2.2) h

/-- find_first p i0 n = some i means i is in [i0, i0+n), satisfies p,
and is least such. -/
theorem find_first_some_spec (p : Nat → Bool) :
    ∀ (n i0 i : Nat), find_first p i0 n = some i →
      i0 ≤ i ∧ i < i0 + n ∧ p i = true ∧
      ∀ j, i0 ≤ j → j < i → p j = false := by
  intro n
  induction n with
  | zero => intro i0 i h; cases h
  | succ m ih =>
    intro i0 i h
    by_cases hp : p i0 = true
    · simp [find_first, hp] at h
      subst h
      exact ⟨Nat.le_refl _, by omega, hp, fun j hj1 hj2 => by omega⟩
    · simp [find_first, hp] at h
      obtain ⟨h1, h2, h3, h4⟩ := ih (i0 + 1) i h
      refine ⟨by omega, by omega, h3, fun j hj1 hj2 => ?_⟩
      by_cases hj : j = i0
      · subst hj; exact Bool.eq_false_iff.mpr hp
      · exact h4 j (by omega) hj2

/-- find_first p i0 n = none iff p fails throughout [i0, i0+n). -/
theorem find_first_none_spec (p : Nat → Bool) :
    ∀ (n i0 : Nat), find_first p i0 n = none ↔
      ∀ j, i0 ≤ j → j < i0 + n → p j = false := by
  intro n
  induction n with
  | zero => intro i0; simp [find_first]; intro j h1 h2; omega
  | succ m ih =>
    intro i0
    by_cases hp : p i0 = true
    · have hL : find_first p i0 (m + 1) = some i0 := by simp [find_first, hp]
      rw [hL]
      constructor
      · intro h; cases h
      · intro h
        have := h i0 (Nat.le_refl _) (by omega)
        rw [hp] at this; cases this
    · simp [find_first, hp, ih (i0 + 1)]
      constructor
      · intro h j hj1 hj2
        by_cases hji : j = i0
        · subst hji; exact Bool.eq_false_iff.mpr hp
        · exact h j (by omega) (by omega)
      · intro h j hj1 hj2
        exact h j (by omega) (by omega)

/-- C7: channel create fails with -ENODEV (-19) iff no bit of the
requested engine mask below num_engine names an exposed engine (the
allocation step cannot itself produce -19); on success the channel is
bound to the lowest-indexed requested exposed engine, starts STOPPED,
and its stall accounting is limit_ms = 5000 with sum_ms = 0. -/
theorem c7_chan_ctor (n : Nat) (exposed : Nat → Bool) (engineMask : Nat)
    (alloc : Option Int) (halloc : alloc ≠ some (-19)) :
    ((gk104_fifo_chan_ctor n exposed engineMask alloc = Except.error (-19)) ↔
      ∀ i, i < n → ¬(engineMask.testBit i = true ∧ exposed i = true)) ∧
    (∀ ch, gk104_fifo_chan_ctor n exposed engineMask alloc = Except.ok ch →
      ch.engine < n ∧ engineMask.testBit ch.engine = true ∧
      exposed ch.engine = true ∧
      (∀ j, j < ch.engine → ¬(engineMask.testBit j = true ∧ exposed j = true)) ∧
      ch.state = ChanState.STOPPED ∧
      ch.timeout.limit_ms = GRFIFO_TIMEOUT_DEFAULT ∧
      ch.timeout.sum_ms = 0) := by
  cases hf : find_first (fun i => engineMask.testBit i && exposed i) 0 n with
  | none =>
    constructor
    · simp only [gk104_fifo_chan_ctor, hf]
      constructor
      · intro _ i hi
        have := (find_first_none_spec _ n 0).mp hf i (Nat.zero_le _) (by omega)
        simp only [Bool.and_eq_true] at this
        intro ⟨hb, he⟩
        rw [hb, he] at this
        cases this
      · intro _; trivial
    · intro ch hch
      simp only [gk104_fifo_chan_ctor, hf] at hch
      cases hch
  | some i =>
    obtain ⟨_, hlt, hpi, hmin⟩ := find_first_some_spec _ n 0 i hf
    simp only [Bool.and_eq_true] at hpi
    constructor
    · simp only [gk104_fifo_chan_ctor, hf]
      constructor
      · intro herr
        exfalso
        cases halc : alloc with
        | none => rw [halc] at herr; cases herr
        | some e =>
          rw [halc] at herr
          simp only [Except.error.injEq] at herr
          exact halloc (by rw [halc, herr])
      · intro hall
        exact absurd ⟨hpi.1, hpi.2⟩ (hall i (by omega))
    · intro ch hch
      simp only [gk104_fifo_chan_ctor, hf] at hch
      cases halc : alloc with
      | some e => rw [halc] at hch; cases hch
      | none =>
        rw [halc] at hch
        simp only [Except.ok.injEq] at hch
        subst hch
        refine ⟨?_, hpi.1, hpi.2, ?_, rfl, rfl, rfl⟩
        · show i < n
          omega
        · intro j hj
          have hj' : j < i := hj
          have := hmin j (Nat.zero_le _) hj'
          simp only [Bool.and_eq_true] at this
          intro ⟨hb, he⟩
          rw [hb, he] at this
          cases this

/-- Engine-exposure fixture for the C7 witness: engines 1 and 2 exposed,
engine 0 absent. -/
def c7_exposed : Nat → Bool := fun i => decide (0 < i)

/-- The channel the C7 witness expects: mask 0b11 requests engines 0 and
1, engine 0 is not exposed, so the channel binds to engine 1. -/
def c7_ch : GkChan :=
  { engine := 1, state := ChanState.STOPPED,
    timeout := { sum_ms := 0, limit_ms := GRFIFO_TIMEOUT_DEFAULT,
                 gpfifo_get := 0, watchdog_inited := false,
                 watchdog_gpfifo_get := 0, watchdog_queued := false } }

/-- C7 witness: creating with mask 3 against three engines of which only
1 and 2 are exposed binds the channel to engine 1 with the 5000 ms
default limit and zero accumulated stall. -/
theorem c7_chan_ctor_witness :
    c7_ch.engine < 3 ∧ c7_ch.state = ChanState.STOPPED ∧
    c7_ch.timeout.limit_ms = GRFIFO_TIMEOUT_DEFAULT ∧
    c7_ch.timeout.sum_ms = 0 := by
  have h := (c7_chan_ctor 3 c7_exposed 3 none (by simp)).2 c7_ch (by rfl)
  exact ⟨h.1, h.2.2.2.2.1, h.2.2.2.2.2.1, h.2.2.2.2.2.2⟩

/-- C4: each run-list rebuild writes the non-live buffer with exactly
one entry per channel that is RUNNING on the target engine (membership
characterisation over the scanned pool, hence no duplicate ids and no
KILLED or STOPPED channel), in increasing channel-id order, and swaps
the live/non-live designation so consecutive rebuilds alternate
buffers. -/
theorem c4_runlist_update (tbl : Nat → Option GkChan) (maxc engine : Nat)
    (e : Engn) (wf : ∀ i, maxc ≤ i → tbl i = none) :
    (∀ i, i ∈ (gk104_fifo_runlist_update tbl maxc engine e).submitted ↔
      ∃ ch, tbl i = some ch ∧ ch.state = ChanState.RUNNING ∧ ch.engine = engine) ∧
    (gk104_fifo_runlist_update tbl maxc engine e).submitted.Nodup ∧
    List.Sorted (· < ·) (gk104_fifo_runlist_update tbl maxc engine e).submitted ∧
    ((gk104_fifo_runlist_update tbl maxc engine e).submittedBuf = e.cur_runlist) ∧
    ((gk104_fifo_runlist_update tbl maxc engine e).engn.cur_runlist = !e.cur_runlist) ∧
    (∀ tbl2 m2, (gk104_fifo_runlist_update tbl2 m2 engine
        (gk104_fifo_runlist_update tbl maxc engine e).engn).submittedBuf =
      !(gk104_fifo_runlist_update tbl maxc engine e).submittedBuf) := by
  have hsub : (gk104_fifo_runlist_update tbl maxc engine e).submitted =
      (List.range maxc).filter (fun i => runlist_chan_entry engine (tbl i)) := rfl
  refine ⟨?_, ?_, ?_, rfl, rfl, fun tbl2 m2 => rfl⟩
  · intro i
    rw [hsub, List.mem_filter, List.mem_range]
    constructor
    · intro ⟨_, hp⟩
      cases htbl : tbl i with
      | none => rw [htbl] at hp; cases hp
      | some ch =>
        rw [htbl] at hp
        simp only [runlist_chan_entry, Bool.and_eq_true, beq_iff_eq] at hp
        exact ⟨ch, rfl, hp.1, hp.2⟩
    · intro ⟨ch, h1, h2, h3⟩
      constructor
      · by_contra hge
        rw [wf i (by omega)] at h1
        cases h1
      · rw [h1]
        simp only [runlist_chan_entry, Bool.and_eq_true, beq_iff_eq]
        exact ⟨h2, h3⟩
  · rw [hsub]
    exact (List.nodup_range maxc).filter _
  · rw [hsub]
    exact (List.sorted_lt_range maxc).filter _

/-- Shared timeout fixture for the table witnesses. -/
def t_fix : TimeoutState :=
  { sum_ms := 0, limit_ms := 5000, gpfifo_get := 0,
    watchdog_inited := false, watchdog_gpfifo_get := 0, watchdog_queued := false }

/-- Channel table for the C4 witness: channel 0 RUNNING on engine 0,
channel 1 KILLED on engine 0, channel 2 RUNNING on engine 1. -/
def c4_tbl : Nat → Option GkChan := fun i =>
  if i = 0 then some { engine := 0, state := ChanState.RUNNING, timeout := t_fix }
  else if i = 1 then some { engine := 0, state := ChanState.KILLED, timeout := t_fix }
  else if i = 2 then some { engine := 1, state := ChanState.RUNNING, timeout := t_fix }
  else none

/-- Empty double-buffered engine slot for the C4 witness. -/
def c4_e : Engn := { runlist0 := [], runlist1 := [], cur_runlist := false }

/-- C4 witness: rebuilding engine 0's run list over the three-channel
table yields a duplicate-free submitted list, writes the buffer that
cur_runlist designated and flips the designation. -/
theorem c4_runlist_update_witness :
    (gk104_fifo_runlist_update c4_tbl 3 0 c4_e).submitted.Nodup ∧
    (gk104_fifo_runlist_update c4_tbl 3 0 c4_e).submittedBuf = c4_e.cur_runlist ∧
    (gk104_fifo_runlist_update c4_tbl 3 0 c4_e).engn.cur_runlist = !c4_e.cur_runlist := by
  have h := c4_runlist_update c4_tbl 3 0 c4_e (by
    intro i hi
    have h0 : i ≠ 0 := by omega
    have h1 : i ≠ 1 := by omega
    have h2 : i ≠ 2 := by omega
    simp [c4_tbl, h0, h1, h2])
  exact ⟨h.2.1, h.2.2.2.1, h.2.2.2.2.1⟩

/-- Set the watchdog_queued flag of a channel. -/
def wd_set_queued (b : Bool) (ch : GkChan) : GkChan :=
  { ch with timeout := { ch.timeout with watchdog_queued := b } }

/-- When cancel_delayed_work succeeds everywhere, the restart scan over a
duplicate-free id list returns true, cancels and reschedules the
watchdog of every visited inited channel except the exception channel
(whose watchdog is cancelled and left unscheduled), and leaves every
other slot untouched. -/
theorem restart_scan_success (cOk : Nat → Bool) (exc : Nat) :
    ∀ (l : List Nat) (tbl : Nat → Option GkChan), (∀ j, cOk j = true) → l.Nodup →
      (gk104_fifo_chan_timeout_restart_scan cOk exc l tbl).1 = true ∧
      ∀ j, (gk104_fifo_chan_timeout_restart_scan cOk exc l tbl).2 j =
        if j ∈ l then
          match tbl j with
          | none => none
          | some ch =>
            if ch.timeout.watchdog_inited then
              some (if j = exc then wd_set_queued false ch else wd_set_queued true ch)
            else some ch
        else tbl j := by
  intro l
  induction l with
  | nil =>
    intro tbl _ _
    exact ⟨rfl, fun j => by simp [gk104_fifo_chan_timeout_restart_scan]⟩
  | cons i t ih =>
    intro tbl hc hnd
    obtain ⟨hit, hndt⟩ := List.nodup_cons.mp hnd
    cases htbl : tbl i with
    | none =>
      have hstep : gk104_fifo_chan_timeout_restart_scan cOk exc (i :: t) tbl =
          gk104_fifo_chan_timeout_restart_scan cOk exc t tbl := by
        simp [gk104_fifo_chan_timeout_restart_scan, htbl]
      obtain ⟨h1, h2⟩ := ih tbl hc hndt
      rw [hstep]
      refine ⟨h1, fun j => ?_⟩
      rw [h2 j]
      by_cases hj : j = i
      · subst hj
        simp [hit, htbl]
      · simp [List.mem_cons, hj]
    | some ch =>
      cases hinit : ch.timeout.watchdog_inited with
      | false =>
        have hstep : gk104_fifo_chan_timeout_restart_scan cOk exc (i :: t) tbl =
            gk104_fifo_chan_timeout_restart_scan cOk exc t tbl := by
          simp [gk104_fifo_chan_timeout_restart_scan, htbl, hinit]
        obtain ⟨h1, h2⟩ := ih tbl hc hndt
        rw [hstep]
        refine ⟨h1, fun j => ?_⟩
        rw [h2 j]
        by_cases hj : j = i
        · subst hj
          simp [hit, htbl, hinit]
        · simp [List.mem_cons, hj]
      | true =>
        have hstep : gk104_fifo_chan_timeout_restart_scan cOk exc (i :: t) tbl =
            gk104_fifo_chan_timeout_restart_scan cOk exc t
              (updTable tbl i
                (if i = exc then wd_set_queued false ch else wd_set_queued true ch)) := by
          by_cases hie : i = exc
          · subst hie
            simp [gk104_fifo_chan_timeout_restart_scan, htbl, hinit, hc i,
                  wd_set_queued]
          · simp [gk104_fifo_chan_timeout_restart_scan, htbl, hinit, hc i, hie,
                  wd_set_queued]
        obtain ⟨h1, h2⟩ := ih (updTable tbl i
          (if i = exc then wd_set_queued false ch else wd_set_queued true ch)) hc hndt
        rw [hstep]
        refine ⟨h1, fun j => ?_⟩
        rw [h2 j]
        by_cases hj : j = i
        · subst hj
          simp [hit, htbl, hinit, updTable]
        · by_cases hjt : j ∈ t
          · simp [List.mem_cons, hj, hjt, updTable]
          · simp [List.mem_cons, hj, hjt, updTable]

/-- When the scan reaches a channel k whose armed watchdog work cannot
be cancelled (cOk k = false) after a duplicate-free prefix l1 of ids
whose cancels all succeed, it returns false at once; slots outside the
prefix are left as they stood when the failure hit, and every inited
channel of the prefix has already been cancelled and — except the
exception channel — rescheduled. -/
theorem restart_scan_abort (cOk : Nat → Bool) (exc k : Nat) (l2 : List Nat)
    (wk : GkChan) :
    ∀ (l1 : List Nat) (tbl : Nat → Option GkChan),
      (∀ j, j ∈ l1 → cOk j = true) → l1.Nodup → k ∉ l1 →
      tbl k = some wk → wk.timeout.watchdog_inited = true → cOk k = false →
      (gk104_fifo_chan_timeout_restart_scan cOk exc (l1 ++ k :: l2) tbl).1 = false ∧
      (∀ j, j ∉ l1 →
        (gk104_fifo_chan_timeout_restart_scan cOk exc (l1 ++ k :: l2) tbl).2 j = tbl j) ∧
      (∀ j ch, j ∈ l1 → tbl j = some ch → ch.timeout.watchdog_inited = true →
        (gk104_fifo_chan_timeout_restart_scan cOk exc (l1 ++ k :: l2) tbl).2 j =
          some (if j = exc then wd_set_queued false ch else wd_set_queued true ch)) := by
  intro l1
  induction l1 with
  | nil =>
    intro tbl _ _ _ htk hwk hck
    have hstep : gk104_fifo_chan_timeout_restart_scan cOk exc ([] ++ k :: l2) tbl =
        (false, tbl) := by
      simp [gk104_fifo_chan_timeout_restart_scan, htk, hwk, hck]
    rw [hstep]
    exact ⟨rfl, fun j _ => rfl, fun j ch hj => absurd hj (List.not_mem_nil j)⟩
  | cons i t ih =>
    intro tbl hc hnd hkl htk hwk hck
    obtain ⟨hit, hndt⟩ := List.nodup_cons.mp hnd
    have hki : k ≠ i := fun h => hkl (h ▸ List.mem_cons_self i t)
    have hkt : k ∉ t := fun h => hkl (List.mem_cons_of_mem i h)
    have hci : cOk i = true := hc i (List.mem_cons_self i t)
    have hct : ∀ j, j ∈ t → cOk j = true := fun j hj => hc j (List.mem_cons_of_mem i hj)
    cases htbl : tbl i with
    | none =>
      have hstep : gk104_fifo_chan_timeout_restart_scan cOk exc ((i :: t) ++ k :: l2) tbl =
          gk104_fifo_chan_timeout_restart_scan cOk exc (t ++ k :: l2) tbl := by
        simp [gk104_fifo_chan_timeout_restart_scan, htbl]
      obtain ⟨h1, h2, h3⟩ := ih tbl hct hndt hkt htk hwk hck
      rw [hstep]
      refine ⟨h1, fun j hj => h2 j (fun hjm => hj (List.mem_cons_of_mem i hjm)), ?_⟩
      intro j ch hj hch hchi
      rcases List.mem_cons.mp hj with hje | hjt
      · subst hje
        rw [htbl] at hch
        cases hch
      · exact h3 j ch hjt hch hchi
    | some ch =>
      cases hinit : ch.timeout.watchdog_inited with
      | false =>
        have hstep : gk104_fifo_chan_timeout_restart_scan cOk exc ((i :: t) ++ k :: l2) tbl =
            gk104_fifo_chan_timeout_restart_scan cOk exc (t ++ k :: l2) tbl := by
          simp [gk104_fifo_chan_timeout_restart_scan, htbl, hinit]
        obtain ⟨h1, h2, h3⟩ := ih tbl hct hndt hkt htk hwk hck
        rw [hstep]
        refine ⟨h1, fun j hj => h2 j (fun hjm => hj (List.mem_cons_of_mem i hjm)), ?_⟩
        intro j ch' hj hch hchi
        rcases List.mem_cons.mp hj with hje | hjt
        · subst hje
          rw [htbl] at hch
          cases hch
          rw [hinit] at hchi
          cases hchi
        · exact h3 j ch' hjt hch hchi
      | true =>
        have hstep : gk104_fifo_chan_timeout_restart_scan cOk exc ((i :: t) ++ k :: l2) tbl =
            gk104_fifo_chan_timeout_restart_scan cOk exc (t ++ k :: l2)
              (updTable tbl i
                (if i = exc then wd_set_queued false ch else wd_set_queued true ch)) := by
          by_cases hie : i = exc
          · subst hie
            simp [gk104_fifo_chan_timeout_restart_scan, htbl, hinit, hci,
                  wd_set_queued]
          · simp [gk104_fifo_chan_timeout_restart_scan, htbl, hinit, hci, hie,
                  wd_set_queued]
        have htk' : updTable tbl i
            (if i = exc then wd_set_queued false ch else wd_set_queued true ch) k =
            some wk := by
          simp [updTable, hki]
          exact htk
        obtain ⟨h1, h2, h3⟩ := ih (updTable tbl i
          (if i = exc then wd_set_queued false ch else wd_set_queued true ch))
          hct hndt hkt htk' hwk hck
        rw [hstep]
        refine ⟨h1, ?_, ?_⟩
        · intro j hj
          have hji : j ≠ i := fun h => hj (h ▸ List.mem_cons_self i t)
          have hjt : j ∉ t := fun h => hj (List.mem_cons_of_mem i h)
          rw [h2 j hjt]
          simp [updTable, hji]
        · intro j ch' hj hch hchi
          rcases List.mem_cons.mp hj with hje | hjt
          · subst hje
            rw [htbl] at hch
            cases hch
            rw [h2 j hit]
            simp [updTable]
          · have hji : j ≠ i := fun h => hit (h ▸ hjt)
            have htblj : updTable tbl i
                (if i = exc then wd_set_queued false ch else wd_set_queued true ch) j =
                some ch' := by
              simp [updTable, hji]
              exact hch
            exact h3 j ch' hjt htblj hchi

/-- An occupied slot stays occupied through a fully successful restart
scan. -/
theorem restart_scan_success_some (cOk : Nat → Bool) (exc : Nat) (l : List Nat)
    (tbl : Nat → Option GkChan) (hc : ∀ j, cOk j = true) (hnd : l.Nodup)
    (j : Nat) (ch : GkChan) (hj : tbl j = some ch) :
    ∃ x, (gk104_fifo_chan_timeout_restart_scan cOk exc l tbl).2 j = some x := by
  obtain ⟨_, h2⟩ := restart_scan_success cOk exc l tbl hc hnd
  by_cases hm : j ∈ l
  · refine ⟨if ch.timeout.watchdog_inited then
      (if j = exc then wd_set_queued false ch else wd_set_queued true ch)
      else ch, ?_⟩
    rw [h2 j, if_pos hm, hj]
    by_cases hi : ch.timeout.watchdog_inited = true <;>
      by_cases hje : j = exc <;> simp [hi, hje]
  · refine ⟨ch, ?_⟩
    rw [h2 j, if_neg hm, hj]

/-- C5: in one engine iteration of the context-switch timeout monitor,
when the updated accumulated stall strictly exceeds the channel's limit
and every watchdog cancel succeeds, the monitor notifies the
idle-timeout event keyed by the channel id, reschedules the watchdog of
every other channel in the pool (the recovered channel's is cancelled,
not rescheduled), and invokes Fault Recovery for the channel (killed,
record merged via the synthesized fault with unit 0); when the stall
does not exceed the limit, no recovery is invoked, the waiting warning
is logged and the recovery-delay debounce timestamp is updated. -/
theorem c5_ctxsw_monitor (ctx : FifoCtx) (tbl : Nat → Option GkChan)
    (rec : FaultRecord) (engn stat : Nat) (ch : GkChan)
    (hba : ctxsw_busy_active stat = true)
    (hch : tbl (ctxsw_chid stat) = some ch)
    (heng : engn < ctx.num_engine ∧ ctx.engineExposed engn = true) :
    ((gk104_fifo_update_timeout (ctx.ptrRead (ctxsw_chid stat)) ch.timeout
        GRFIFO_TIMEOUT_CHECK_PERIOD_MS).2 = true →
      (∀ j, ctx.cancelOk j = true) →
      (gk104_fifo_intr_sched_ctxsw_engine ctx tbl rec engn stat).recovered =
        some (ctxsw_chid stat) ∧
      (gk104_fifo_intr_sched_ctxsw_engine ctx tbl rec engn stat).events =
        [(ctxsw_chid stat, EventKind.idleTimeout),
         (ctxsw_chid stat, EventKind.faultUevent)] ∧
      (gk104_fifo_intr_sched_ctxsw_engine ctx tbl rec engn stat).record =
        fault_record_merge rec (ctx.engsubdev engn) (ctxsw_chid stat) 0 ∧
      (gk104_fifo_intr_sched_ctxsw_engine ctx tbl rec engn stat).waitWarned = false ∧
      (gk104_fifo_intr_sched_ctxsw_engine ctx tbl rec engn stat).recoveryDelayUpdated
        = false ∧
      (∃ c', (gk104_fifo_intr_sched_ctxsw_engine ctx tbl rec engn stat).table
          (ctxsw_chid stat) = some c' ∧ c'.state = ChanState.KILLED) ∧
      (∀ j c, j ≠ ctxsw_chid stat → ctx.minc ≤ j → j < ctx.maxc →
        tbl j = some c → c.timeout.watchdog_inited = true →
        (gk104_fifo_intr_sched_ctxsw_engine ctx tbl rec engn stat).table j =
          some (wd_set_queued true c))) ∧
    ((gk104_fifo_update_timeout (ctx.ptrRead (ctxsw_chid stat)) ch.timeout
        GRFIFO_TIMEOUT_CHECK_PERIOD_MS).2 = false →
      (gk104_fifo_intr_sched_ctxsw_engine ctx tbl rec engn stat).recovered = none ∧
      (gk104_fifo_intr_sched_ctxsw_engine ctx tbl rec engn stat).events = [] ∧
      (gk104_fifo_intr_sched_ctxsw_engine ctx tbl rec engn stat).waitWarned = true ∧
      (gk104_fifo_intr_sched_ctxsw_engine ctx tbl rec engn stat).recoveryDelayUpdated
        = true ∧
      (gk104_fifo_intr_sched_ctxsw_engine ctx tbl rec engn stat).record = rec) := by
  set chid := ctxsw_chid stat with hchid
  set ch1 := { ch with timeout := (gk104_fifo_update_timeout (ctx.ptrRead chid)
    ch.timeout GRFIFO_TIMEOUT_CHECK_PERIOD_MS).1 } with hch1
  set tbl1 := updTable tbl chid ch1 with htbl1
  constructor
  · intro hover hcanc
    obtain ⟨hs1, hs2⟩ := restart_scan_success ctx.cancelOk chid
      (List.range' ctx.minc (ctx.maxc - ctx.minc)) tbl1 hcanc (List.nodup_range' _ _)
    have hred : gk104_fifo_intr_sched_ctxsw_engine ctx tbl rec engn stat =
        ⟨fun j => if j = chid then
            ((gk104_fifo_chan_timeout_restart_all ctx.cancelOk ctx.minc ctx.maxc
               chid tbl1).2 j).map (fun c => { c with state := ChanState.KILLED })
          else (gk104_fifo_chan_timeout_restart_all ctx.cancelOk ctx.minc ctx.maxc
               chid tbl1).2 j,
         fault_record_merge rec (ctx.engsubdev engn) chid 0,
         [(chid, EventKind.idleTimeout), (chid, EventKind.faultUevent)],
         some chid, false, false⟩ := by
      simp only [gk104_fifo_intr_sched_ctxsw_engine, ← hchid, hba, if_true, hch]
      rw [if_pos heng]
      simp only [← hch1, ← htbl1, hover, if_true]
      rw [if_pos (show (gk104_fifo_chan_timeout_restart_all ctx.cancelOk ctx.minc
        ctx.maxc chid tbl1).1 = true from hs1)]
    have htab : (gk104_fifo_intr_sched_ctxsw_engine ctx tbl rec engn stat).table =
        fun j => if j = chid then
            ((gk104_fifo_chan_timeout_restart_all ctx.cancelOk ctx.minc ctx.maxc
              chid tbl1).2 j).map (fun c => { c with state := ChanState.KILLED })
          else (gk104_fifo_chan_timeout_restart_all ctx.cancelOk ctx.minc ctx.maxc
              chid tbl1).2 j := congrArg CtxswResult.table hred
    refine ⟨by rw [hred], by rw [hred], by rw [hred], by rw [hred], by rw [hred],
      ?_, ?_⟩
    · have htc : tbl1 chid = some ch1 := by
        rw [htbl1]
        simp [updTable]
      obtain ⟨x, hx⟩ := restart_scan_success_some ctx.cancelOk chid
        (List.range' ctx.minc (ctx.maxc - ctx.minc)) tbl1 hcanc
        (List.nodup_range' _ _) chid ch1 htc
      refine ⟨{ x with state := ChanState.KILLED }, ?_, rfl⟩
      simp only [htab, if_true]
      simp only [gk104_fifo_chan_timeout_restart_all]
      rw [hx]
      rfl
    · intro j c hj hj1 hj2 hcj hcinit
      have hm : j ∈ List.range' ctx.minc (ctx.maxc - ctx.minc) := by
        rw [List.mem_range'_1]
        omega
      have htj : tbl1 j = some c := by
        rw [htbl1]
        simp [updTable, hj]
        exact hcj
      have h := hs2 j
      simp only [htab]
      rw [if_neg hj]
      simp only [gk104_fifo_chan_timeout_restart_all]
      rw [h, if_pos hm, htj]
      simp [hcinit, hj]
  · intro hover
    have hred : gk104_fifo_intr_sched_ctxsw_engine ctx tbl rec engn stat =
        ⟨tbl1, rec, [], none, true, true⟩ := by
      simp only [gk104_fifo_intr_sched_ctxsw_engine, ← hchid, hba, if_true, hch]
      rw [if_pos heng]
      simp only [← hch1, ← htbl1]
      simp [hover]
    rw [hred]
    exact ⟨rfl, rfl, rfl, rfl, rfl⟩

/-- Monitor context for the C5 witness: two exposed engines, channel
pool ids 0 and 1, all cancels succeed, consumer pointer reads 0. -/
def c5_ctx : FifoCtx :=
  { num_engine := 2, engineExposed := fun _ => true, engsubdev := fun e => e + 3,
    minc := 0, maxc := 2, cancelOk := fun _ => true, ptrRead := fun _ => 0 }

/-- Channel for the C5 witness: stall 400 ms accumulated against a
100 ms limit, unchanged pointer, armed watchdog. -/
def c5_ch : GkChan :=
  { engine := 0, state := ChanState.RUNNING,
    timeout := { sum_ms := 400, limit_ms := 100, gpfifo_get := 0,
                 watchdog_inited := true, watchdog_gpfifo_get := 0,
                 watchdog_queued := true } }

/-- Table for the C5 witness: only channel 1 exists. -/
def c5_tbl : Nat → Option GkChan := fun i => if i = 1 then some c5_ch else none

/-- C5 witness: status word 0x8001a000 (busy, ctxstat LOAD, next id 1)
escalates for channel 1: recovery is invoked and the idle-timeout plus
fault events are emitted. -/
theorem c5_ctxsw_monitor_witness :
    (gk104_fifo_intr_sched_ctxsw_engine c5_ctx c5_tbl
      { mask := 0, fault_chan := none, fault_unit := 0, work_queued := false }
      0 0x8001a000).recovered = some 1 ∧
    (gk104_fifo_intr_sched_ctxsw_engine c5_ctx c5_tbl
      { mask := 0, fault_chan := none, fault_unit := 0, work_queued := false }
      0 0x8001a000).events =
      [(1, EventKind.idleTimeout), (1, EventKind.faultUevent)] := by
  have h := (c5_ctxsw_monitor c5_ctx c5_tbl
    { mask := 0, fault_chan := none, fault_unit := 0, work_queued := false }
    0 0x8001a000 c5_ch (by decide) (by decide) ⟨by decide, rfl⟩).1
    (by decide) (fun j => rfl)
  exact ⟨h.1, h.2.1⟩

/-- Channel with an armed, scheduled watchdog for the C10 fixtures. -/
def c10_ch0 : GkChan :=
  { engine := 0, state := ChanState.RUNNING,
    timeout := { sum_ms := 0, limit_ms := 5000, gpfifo_get := 0,
                 watchdog_inited := true, watchdog_gpfifo_get := 0,
                 watchdog_queued := true } }

/-- Second armed channel for the C10 fixtures (cancel will fail here). -/
def c10_ch1 : GkChan :=
  { engine := 0, state := ChanState.RUNNING,
    timeout := { sum_ms := 0, limit_ms := 5000, gpfifo_get := 0,
                 watchdog_inited := true, watchdog_gpfifo_get := 0,
                 watchdog_queued := true } }

/-- C10 table: channels 0 and 1 with armed watchdogs. -/
def c10_tbl : Nat → Option GkChan := fun j =>
  if j = 0 then some c10_ch0 else if j = 1 then some c10_ch1 else none

/-- C10 cancel oracle: cancel_delayed_work succeeds only for channel 0. -/
def c10_cOk : Nat → Bool := fun j => decide (j = 0)

/-- C10 counterexample: with channel pool [0, 2), exception channel 2
and cancel failing at channel 1, the restart scan returns false — yet
channel 0, visited earlier, has had its watchdog cancelled AND
immediately rescheduled (watchdog_queued = true), contradicting the
claim that earlier-visited watchdogs are left unscheduled. -/
theorem c10_counterexample :
    (gk104_fifo_chan_timeout_restart_all c10_cOk 0 2 2 c10_tbl).1 = false ∧
    (gk104_fifo_chan_timeout_restart_all c10_cOk 0 2 2 c10_tbl).2 0 =
      some (wd_set_queued true c10_ch0) ∧
    (wd_set_queued true c10_ch0).timeout.watchdog_queued = true := by
  refine ⟨by decide, by decide, rfl⟩

/-- C10 (amended): if cancelling the armed watchdog work of a channel
fails mid-scan, the restart scan returns false at once and the
escalation path then does not invoke Fault Recovery on that monitor
pass; the channels visited earlier have had their watchdogs cancelled
and immediately rescheduled — except the exception channel, whose
watchdog is cancelled and left unscheduled — the slots not yet visited
are untouched, and the scan runs over ids strictly below the maximum,
never visiting the highest channel id. -/
theorem c10_restart_abort :
    (∀ (cOk : Nat → Bool) (exc k : Nat) (l2 l1 : List Nat)
       (tbl : Nat → Option GkChan) (wk : GkChan),
       (∀ j, j ∈ l1 → cOk j = true) → l1.Nodup → k ∉ l1 →
       tbl k = some wk → wk.timeout.watchdog_inited = true → cOk k = false →
       (gk104_fifo_chan_timeout_restart_scan cOk exc (l1 ++ k :: l2) tbl).1 = false ∧
       (∀ j, j ∉ l1 →
         (gk104_fifo_chan_timeout_restart_scan cOk exc (l1 ++ k :: l2) tbl).2 j = tbl j) ∧
       (∀ j ch, j ∈ l1 → tbl j = some ch → ch.timeout.watchdog_inited = true →
         (gk104_fifo_chan_timeout_restart_scan cOk exc (l1 ++ k :: l2) tbl).2 j =
           some (if j = exc then wd_set_queued false ch else wd_set_queued true ch))) ∧
    (∀ (ctx : FifoCtx) (tbl : Nat → Option GkChan) (rec : FaultRecord)
       (engn stat : Nat) (ch : GkChan),
       ctxsw_busy_active stat = true →
       tbl (ctxsw_chid stat) = some ch →
       engn < ctx.num_engine ∧ ctx.engineExposed engn = true →
       (gk104_fifo_update_timeout (ctx.ptrRead (ctxsw_chid stat)) ch.timeout
         GRFIFO_TIMEOUT_CHECK_PERIOD_MS).2 = true →
       (gk104_fifo_chan_timeout_restart_all ctx.cancelOk ctx.minc ctx.maxc
         (ctxsw_chid stat) (updTable tbl (ctxsw_chid stat)
           { ch with timeout := (gk104_fifo_update_timeout
             (ctx.ptrRead (ctxsw_chid stat)) ch.timeout
             GRFIFO_TIMEOUT_CHECK_PERIOD_MS).1 })).1 = false →
       (gk104_fifo_intr_sched_ctxsw_engine ctx tbl rec engn stat).recovered = none ∧
       (gk104_fifo_intr_sched_ctxsw_engine ctx tbl rec engn stat).events =
         [(ctxsw_chid stat, EventKind.idleTimeout)] ∧
       (gk104_fifo_intr_sched_ctxsw_engine ctx tbl rec engn stat).record = rec) ∧
    (∀ (cOk : Nat → Bool) (minc maxc exc : Nat) (tbl : Nat → Option GkChan),
       gk104_fifo_chan_timeout_restart_all cOk minc maxc exc tbl =
         gk104_fifo_chan_timeout_restart_scan cOk exc
           (List.range' minc (maxc - minc)) tbl ∧
       maxc ∉ List.range' minc (maxc - minc)) := by
  refine ⟨?_, ?_, ?_⟩
  · intro cOk exc k l2 l1 tbl wk hc hnd hkl htk hwk hck
    exact restart_scan_abort cOk exc k l2 wk l1 tbl hc hnd hkl htk hwk hck
  · intro ctx tbl rec engn stat ch hba hch heng hover hfail
    have hred : gk104_fifo_intr_sched_ctxsw_engine ctx tbl rec engn stat =
        ⟨(gk104_fifo_chan_timeout_restart_all ctx.cancelOk ctx.minc ctx.maxc
            (ctxsw_chid stat) (updTable tbl (ctxsw_chid stat)
              { ch with timeout := (gk104_fifo_update_timeout
                (ctx.ptrRead (ctxsw_chid stat)) ch.timeout
                GRFIFO_TIMEOUT_CHECK_PERIOD_MS).1 })).2,
         rec, [(ctxsw_chid stat, EventKind.idleTimeout)], none, false, false⟩ := by
      simp only [gk104_fifo_intr_sched_ctxsw_engine, hba, if_true, hch]
      rw [if_pos heng]
      simp only [hover, if_true]
      simp [hfail]
    rw [hred]
    exact ⟨rfl, rfl, rfl⟩
  · intro cOk minc maxc exc tbl
    refine ⟨rfl, ?_⟩
    intro hmem
    rw [List.mem_range'_1] at hmem
    omega

/-- C10 witness: the scan over [0, 1] with exception 2 and cancel
failing at channel 1 aborts with false, and the loop over pool [0, 2)
never visits the highest id 2. -/
theorem c10_restart_abort_witness :
    (gk104_fifo_chan_timeout_restart_scan c10_cOk 2 [0, 1] c10_tbl).1 = false ∧
    (2 : Nat) ∉ List.range' 0 (2 - 0) := by
  have h := c10_restart_abort.1 c10_cOk 2 1 [] [0] c10_tbl c10_ch1
    (by decide) (by decide) (by decide) (by decide) rfl (by decide)
  have h3 := (c10_restart_abort.2.2 c10_cOk 0 2 2 c10_tbl).2
  exact ⟨h.1, h3⟩

end GK104Fifo
